import Mathlib

/-!
Shallow embedding of the pcie-model bandwidth sweep driver
(`pcie_bw_gradio_ui.py`) and of the layered bandwidth model package
(`model.pcie`, `model.eth`, `model.mem_bw`, `model.simple_nic`,
`model.niantic`) it drives.  The driver is transcribed from the source;
the model package is not shipped in the repository snapshot, so its
functions are modelled from the specification (each such definition says
so in its doc comment).  Bandwidth figures are exact rationals.
-/

/-- Modelled from the spec: the error taxonomy of section 7 — the model
package is missing from the snapshot, so the two error classes it raises
(`ConfigurationError` for an enumerated field outside its valid set,
`InvalidSizeError` for a non-positive payload size) are embedded here. -/
inductive Err where
  | configurationError (field : String) : Err
  | invalidSizeError : Err
deriving DecidableEq

namespace pcie

/-- Modelled from the spec: per-lane encoded signaling rate in Gb/s, a
fixed table lookup by generation (`model.pcie` is missing from the
snapshot).  Early generations use 8b/10b coding, later ones 128b/130b;
the spec fixes the shape of the table, not the literal constants. -/
def laneRateTable (v : String) : Option ℚ :=
  if v = "gen1" then some 2
  else if v = "gen2" then some 4
  else if v = "gen3" then some (1024 / 130)
  else if v = "gen4" then some (2048 / 130)
  else if v = "gen5" then some (4096 / 130)
  else if v = "gen6" then some (8192 / 130)
  else if v = "gen7" then some (16384 / 130)
  else none

/-- Modelled from the spec: lane-count selector parsing (`model.pcie` is
missing from the snapshot); only the power-of-two lane counts 1–32 of the
data model are recognised. -/
def parseLanes (l : String) : Option Nat :=
  if l = "x1" then some 1
  else if l = "x2" then some 2
  else if l = "x4" then some 4
  else if l = "x8" then some 8
  else if l = "x16" then some 16
  else if l = "x32" then some 32
  else none

/-- Modelled from the spec: the immutable PCIe link configuration value
(`model.pcie.Cfg` is missing from the snapshot). -/
structure Cfg where
  version : String
  lanes : Nat
  addr : Nat
  ecrc : Nat
  mps : Nat
  mrrs : Nat
  rcb : Nat
deriving DecidableEq

/-- Per-lane rate of a configuration, from the generation table. -/
def Cfg.laneRate (c : Cfg) : ℚ := (laneRateTable c.version).getD 0

/-- Raw link bandwidth: per-lane rate times lane count (spec section 4.1). -/
def Cfg.RAW_bw (c : Cfg) : ℚ := c.laneRate * c.lanes

/-- Modelled from the spec: per-TLP overhead in bytes — fixed framing (2)
+ sequence (2) + link CRC (4) + header (12, plus 4 for 64-bit addressing)
+ 4 if ECRC is enabled (spec section 4.1). -/
def Cfg.tlpOverhead (c : Cfg) : Nat :=
  2 + 2 + 4 + 12 + (if c.addr = 64 then 4 else 0) + (if c.ecrc = 1 then 4 else 0)

/-- Transaction-layer-usable bandwidth: raw bandwidth scaled by
payload / (payload + per-TLP overhead) with the largest single TLP
(MPS-sized) as reference payload (spec section 4.1). -/
def Cfg.TLP_bw (c : Cfg) : ℚ :=
  c.RAW_bw * c.mps / (c.mps + c.tlpOverhead)

/-- Allowed values for MPS and MRRS (spec data model). -/
def mpsAllowed : List Nat := [128, 256, 512, 1024, 2048, 4096]

/-- Allowed values for RCB (spec data model). -/
def rcbAllowed : List Nat := [64, 128]

/-- Modelled from the spec: validated construction of a PCIe link
configuration (`model.pcie.Cfg.__init__` is missing from the snapshot);
any enumerated field outside its valid set raises ConfigurationError. -/
def mkCfg (version lanesStr : String) (addr ecrc mps mrrs rcb : Nat) :
    Except Err Cfg :=
  match laneRateTable version, parseLanes lanesStr with
  | none, _ => .error (.configurationError ("version"))
  | some _, none => .error (.configurationError ("lanes"))
  | some _, some n =>
    if addr = 32 ∨ addr = 64 then
      if ecrc = 0 ∨ ecrc = 1 then
        if mps ∈ mpsAllowed then
          if mrrs ∈ mpsAllowed then
            if rcb ∈ rcbAllowed then
              .ok ⟨version, n, addr, ecrc, mps, mrrs, rcb⟩
            else .error (.configurationError ("rcb"))
          else .error (.configurationError ("mrrs"))
        else .error (.configurationError ("mps"))
      else .error (.configurationError ("ecrc"))
    else .error (.configurationError ("addr"))

/-- Modelled from the spec: the bandwidth-basis mode selector — raw
channel bandwidth vs. transaction-layer-usable bandwidth. -/
inductive BWMode where
  | BW_RAW : BWMode
  | BW_TLP : BWMode
deriving DecidableEq

/-- Modelled from the spec and the driver call site
`pcie.BW_Spec(tlp_bw, tlp_bw, pcie.BW_Spec.BW_RAW)`: the basis stores a
nominal figure, a worst-case figure and a mode tag, all fixed at
construction (`model.pcie.BW_Spec` is missing from the snapshot). -/
structure BW_Spec where
  nom : ℚ
  worst : ℚ
  mode : BWMode
deriving DecidableEq

/-- The single reference bandwidth a basis exposes to downstream layers:
its nominal figure. -/
def BW_Spec.ref (s : BW_Spec) : ℚ := s.nom

/-- Modelled from the spec: transfer direction selector. -/
inductive Dir where
  | DIR_TX : Dir
  | DIR_RX : Dir
  | DIR_BOTH : Dir
deriving DecidableEq

end pcie

/-- Ceiling division, the packet count for carrying `a` bytes in chunks
of at most `b` bytes. -/
def ceilDiv (a b : Nat) : Nat := (a + b - 1) / b

/-- Effective throughput of a packetised transfer: reference bandwidth
scaled by size / (size + per-packet overhead × packet count)
(spec section 4.3). -/
def effBw (ref : ℚ) (size : Nat) (perPkt : ℚ) (n : Nat) : ℚ :=
  ref * size / (size + perPkt * n)

namespace mem_bw

/-- Modelled from the spec: the outcome of one overhead computation for
one payload size; a direction not covered by the call reports 0. -/
structure TransferResult where
  tx_eff : ℚ
  rx_eff : ℚ
deriving DecidableEq

/-- Write-direction packet count: each TLP carries at most MPS bytes. -/
def pktsWrite (c : pcie.Cfg) (size : Nat) : Nat := ceilDiv size c.mps

/-- Read-direction packet count: the larger of the MRRS request count and
the count implied by RCB alignment of the addressed range. -/
def pktsRead (c : pcie.Cfg) (size : Nat) : Nat :=
  max (ceilDiv size c.mrrs) (ceilDiv size c.rcb)

/-- Modelled from the spec: `mem_bw.write` (missing from the snapshot) —
effective write-only throughput for one payload size. -/
def write (c : pcie.Cfg) (s : pcie.BW_Spec) (size : Nat) : TransferResult :=
  ⟨effBw s.ref size c.tlpOverhead (pktsWrite c size), 0⟩

/-- Modelled from the spec: `mem_bw.read` (missing from the snapshot) —
effective read-only throughput for one payload size. -/
def read (c : pcie.Cfg) (s : pcie.BW_Spec) (size : Nat) : TransferResult :=
  ⟨0, effBw s.ref size c.tlpOverhead (pktsRead c size)⟩

/-- Modelled from the spec: `mem_bw.read_write` (missing from the
snapshot) — simultaneous full-duplex write and read streams of the given
size each, the two figures computed independently. -/
def read_write (c : pcie.Cfg) (s : pcie.BW_Spec) (size : Nat) :
    TransferResult :=
  ⟨(write c s size).tx_eff, (read c s size).rx_eff⟩

/-- Size-checked `mem_bw.write`: a non-positive size raises
InvalidSizeError (spec section 4.3). -/
def writeChk (c : pcie.Cfg) (s : pcie.BW_Spec) (size : Nat) :
    Except Err TransferResult :=
  if 0 < size then .ok (write c s size) else .error .invalidSizeError

/-- Size-checked `mem_bw.read`. -/
def readChk (c : pcie.Cfg) (s : pcie.BW_Spec) (size : Nat) :
    Except Err TransferResult :=
  if 0 < size then .ok (read c s size) else .error .invalidSizeError

/-- Size-checked `mem_bw.read_write`. -/
def read_writeChk (c : pcie.Cfg) (s : pcie.BW_Spec) (size : Nat) :
    Except Err TransferResult :=
  if 0 < size then .ok (read_write c s size) else .error .invalidSizeError

end mem_bw

namespace eth

/-- Modelled from the spec: nominal bit rate table by line-rate selector
(`model.eth` is missing from the snapshot). -/
def rateTable (speed : String) : Option ℚ :=
  if speed = "GigE" then some (10 ^ 9)
  else if speed = "10GigE" then some (10 * 10 ^ 9)
  else if speed = "25GigE" then some (25 * 10 ^ 9)
  else if speed = "40GigE" then some (40 * 10 ^ 9)
  else if speed = "50GigE" then some (50 * 10 ^ 9)
  else if speed = "100GigE" then some (100 * 10 ^ 9)
  else if speed = "200GigE" then some (200 * 10 ^ 9)
  else if speed = "400GigE" then some (400 * 10 ^ 9)
  else none

/-- Modelled from the spec: one Ethernet link's nominal configuration. -/
structure Cfg where
  speed : String
  rate : ℚ
deriving DecidableEq

/-- Modelled from the spec: validated construction of an Ethernet
configuration; an unrecognized line-rate string raises
ConfigurationError. -/
def mkCfg (speed : String) : Except Err Cfg :=
  match rateTable speed with
  | some r => .ok ⟨speed, r⟩
  | none => .error (.configurationError ("ethernet_speed"))

/-- Fixed per-frame overhead in bytes: MAC header 14 + CRC 4 + preamble 8
+ inter-frame gap 12 (spec section 4.4). -/
def frameOverhead : Nat := 14 + 4 + 8 + 12

/-- Modelled from the spec: `eth.Cfg.bps_ex` (missing from the snapshot)
— payload-carrying bitrate: nominal rate × payload bits / total frame
bits, with no fragmentation. -/
def Cfg.bps_ex (c : Cfg) (size : Nat) : ℚ :=
  c.rate * (size * 8) / ((size + frameOverhead) * 8)

end eth

/-- Modelled from the spec: the fixed-size descriptor transfer the simple
NIC adds to the per-packet overhead, in bytes (the spec leaves the
literal constant open; 16 bytes is one descriptor). -/
def descBytes : ℚ := 16

/-- Modelled from the spec: the per-packet interrupt-triggered
memory-mapped I/O cost of the modern NIC's kernel driver, in byte-times
(the spec leaves the literal constant open). -/
def mmioBytes : ℚ := 8

/-- Modelled from the spec: the fixed batch size over which the poll-mode
driver amortizes descriptor and notification overhead. -/
def pmdBatch : ℚ := 32

/-- NIC-layer throughput shared by both NIC models: the PCIe transfer
result for the requested direction with `extra` bytes added to the
per-packet overhead. -/
def nicBw (c : pcie.Cfg) (s : pcie.BW_Spec) (d : pcie.Dir) (size : Nat)
    (extra : ℚ) : mem_bw.TransferResult :=
  match d with
  | .DIR_TX =>
    ⟨effBw s.ref size (c.tlpOverhead + extra) (mem_bw.pktsWrite c size), 0⟩
  | .DIR_RX =>
    ⟨0, effBw s.ref size (c.tlpOverhead + extra) (mem_bw.pktsRead c size)⟩
  | .DIR_BOTH =>
    ⟨effBw s.ref size (c.tlpOverhead + extra) (mem_bw.pktsWrite c size),
     effBw s.ref size (c.tlpOverhead + extra) (mem_bw.pktsRead c size)⟩

namespace simple_nic

/-- Modelled from the spec: `simple_nic.bw` (missing from the snapshot) —
the PCIe result with one fixed-size descriptor transfer added to the
per-packet overhead; no batching, no interrupt amortization. -/
def bw (c : pcie.Cfg) (s : pcie.BW_Spec) (d : pcie.Dir) (size : Nat) :
    mem_bw.TransferResult :=
  nicBw c s d size descBytes

/-- Size-checked `simple_nic.bw`. -/
def bwChk (c : pcie.Cfg) (s : pcie.BW_Spec) (d : pcie.Dir) (size : Nat) :
    Except Err mem_bw.TransferResult :=
  if 0 < size then .ok (bw c s d size) else .error .invalidSizeError

end simple_nic

namespace niantic

/-- Per-packet extra overhead of the kernel driver: one descriptor round
trip plus one interrupt-triggered memory-mapped I/O operation per packet
(spec section 4.5). -/
def kernelExtra : ℚ := descBytes + mmioBytes

/-- Per-packet extra overhead of the poll-mode/batched driver: the
descriptor and notification overhead amortized across a fixed batch
(spec section 4.5). -/
def pmdExtra : ℚ := (descBytes + mmioBytes) / pmdBatch

/-- Modelled from the spec: `niantic.bw` (missing from the snapshot) —
the modern-NIC model, with the poll-mode driver selected by the string
option and the kernel driver otherwise. -/
def bw (c : pcie.Cfg) (s : pcie.BW_Spec) (d : pcie.Dir) (size : Nat)
    (h_opt : String) : mem_bw.TransferResult :=
  if h_opt = "PMD" then nicBw c s d size pmdExtra
  else nicBw c s d size kernelExtra

/-- Size- and mode-checked `niantic.bw`: an unrecognized driver mode
raises ConfigurationError, a non-positive size InvalidSizeError. -/
def bwChk (c : pcie.Cfg) (s : pcie.BW_Spec) (d : pcie.Dir) (size : Nat)
    (h_opt : String) : Except Err mem_bw.TransferResult :=
  if h_opt = "PMD" ∨ h_opt = "kernel" then
    if 0 < size then .ok (bw c s d size h_opt)
    else .error .invalidSizeError
  else .error (.configurationError ("h_opt"))

end niantic

/-- The parameters `run_pcie_model` receives from the UI, after the
driver's `int(...)` conversions of the numeric dropdown strings. -/
structure Params where
  pcie_version : String
  lanes : String
  addr_width : Nat
  ecrc : Nat
  mps : Nat
  mrrs : Nat
  rcb : Nat
  ethernet_speed : String
deriving DecidableEq

/-- External side effects of a run; the only one the driver performs is
the `tempfile.NamedTemporaryFile(delete=False, suffix='.dat')` creation
on its lines 59–60. -/
inductive Effect where
  | tempFileCreate : Effect
deriving DecidableEq

/-- One row of the driver's table: the gross transfer size and the eight
column values of the dataframe built on lines 97–106 (size plus seven
bandwidth figures). -/
structure Row where
  size : Nat
  wr : ℚ
  rd : ℚ
  rdwr : ℚ
  ethBw : ℚ
  simpleNic : ℚ
  kernelNic : ℚ
  pmdNic : ℚ
deriving DecidableEq

/-- The gross frame sizes the driver sweeps: `range(64, 1500 + 1)`. -/
def sweepSizes : List Nat := List.range' 64 1437 1

/-- The driver mode string of the driver's first `niantic.bw` call, which
passes no `h_opt`; the default is the kernel driver. -/
def hOptDefault : String := "kernel"

/-- The driver mode string of the driver's second `niantic.bw` call:
`h_opt="PMD"`. -/
def pmdStr : String := "PMD"

/-- The basis construction on the driver's line 56:
`pcie.BW_Spec(tlp_bw, tlp_bw, pcie.BW_Spec.BW_RAW)` with
`tlp_bw = pciecfg.TLP_bw`. -/
def mkBwSpec (c : pcie.Cfg) : pcie.BW_Spec :=
  ⟨c.TLP_bw, c.TLP_bw, pcie.BWMode.BW_RAW⟩

/-- The payload argument passed at each of the seven per-size model
invocations of the driver's loop body (lines 74–84), in source order:
`mem_bw.write`, `mem_bw.read`, `mem_bw.read_write`, `ethcfg.bps_ex`,
`simple_nic.bw`, `niantic.bw` (kernel), `niantic.bw` (PMD). -/
def rowArgs (size : Nat) : List Nat :=
  [size - 4, size - 4, size - 4, size - 4, size - 4, size - 4, size - 4]

/-- One iteration of the driver's loop (lines 72–94): the seven model
results stored for gross size `size`, every call receiving `size - 4`. -/
def rowOf (c : pcie.Cfg) (bs : pcie.BW_Spec) (ec : eth.Cfg) (size : Nat) :
    Row :=
  ⟨size,
   (mem_bw.write c bs (size - 4)).tx_eff,
   (mem_bw.read c bs (size - 4)).rx_eff,
   (mem_bw.read_write c bs (size - 4)).tx_eff,
   ec.bps_ex (size - 4) / (1000 * 1000 * 1000),
   (simple_nic.bw c bs pcie.Dir.DIR_BOTH (size - 4)).tx_eff,
   (niantic.bw c bs pcie.Dir.DIR_BOTH (size - 4) hOptDefault).tx_eff,
   (niantic.bw c bs pcie.Dir.DIR_BOTH (size - 4) pmdStr).tx_eff⟩

/-- One iteration of the driver's loop through the checked model calls:
the first error, if any, aborts the iteration. -/
def rowChk (c : pcie.Cfg) (bs : pcie.BW_Spec) (ec : eth.Cfg) (size : Nat) :
    Except Err Row :=
  match mem_bw.writeChk c bs (size - 4) with
  | .error e => .error e
  | .ok wr =>
    match mem_bw.readChk c bs (size - 4) with
    | .error e => .error e
    | .ok rd =>
      match mem_bw.read_writeChk c bs (size - 4) with
      | .error e => .error e
      | .ok rdwr =>
        match simple_nic.bwChk c bs pcie.Dir.DIR_BOTH (size - 4) with
        | .error e => .error e
        | .ok sn =>
          match niantic.bwChk c bs pcie.Dir.DIR_BOTH (size - 4) hOptDefault with
          | .error e => .error e
          | .ok kn =>
            match niantic.bwChk c bs pcie.Dir.DIR_BOTH (size - 4) pmdStr with
            | .error e => .error e
            | .ok pn =>
              .ok ⟨size, wr.tx_eff, rd.rx_eff, rdwr.tx_eff,
                   ec.bps_ex (size - 4) / (1000 * 1000 * 1000),
                   sn.tx_eff, kn.tx_eff, pn.tx_eff⟩

/-- Fail-fast effectful map: the loop stops at the first error, exactly
as an uncaught Python exception aborts the driver's `for` loop. -/
def mapE {α β : Type} (f : α → Except Err β) : List α → Except Err (List β)
  | [] => .ok []
  | a :: t =>
    match f a with
    | .error e => .error e
    | .ok b =>
      match mapE f t with
      | .error e => .error e
      | .ok bs => .ok (b :: bs)

/-- The sampling on the driver's line 109, `df.iloc[::64]`: every 64th
row of the table, starting with the first. -/
def every64 {α : Type} (l : List α) : List α :=
  (List.range ((l.length + 63) / 64)).filterMap (fun k => l.get? (64 * k))

/-- Everything `run_pcie_model` computes: the configurations and basis it
builds once, the full per-size table, the sampled table, and the external
side effects it performs along the way. -/
structure RunResult where
  cfg : pcie.Cfg
  ethcfg : eth.Cfg
  bw_spec : pcie.BW_Spec
  table : List Row
  sampled : List Row
  effects : List Effect
deriving DecidableEq

/-- The driver `run_pcie_model` (lines 18–183): build the PCIe
configuration, the Ethernet configuration and the basis once, create the
temporary data file, sweep sizes 64–1500 calling each layer per size, and
sample every 64th row for the table display.  Errors propagate unchanged;
there is no handler in the source. -/
def run_pcie_model (p : Params) : Except Err RunResult :=
  match pcie.mkCfg p.pcie_version p.lanes p.addr_width p.ecrc p.mps p.mrrs
      p.rcb with
  | .error e => .error e
  | .ok cfg =>
    match eth.mkCfg p.ethernet_speed with
    | .error e => .error e
    | .ok ec =>
      let bs := mkBwSpec cfg
      match mapE (rowChk cfg bs ec) sweepSizes with
      | .error e => .error e
      | .ok rows =>
        .ok ⟨cfg, ec, bs, rows, every64 rows, [Effect.tempFileCreate]⟩

/-- Variant of `run_pcie_model` that rebuilds the basis from the link
configuration inside every loop iteration instead of reusing the one
built before the loop. -/
def run_pcie_model_recompute (p : Params) : Except Err RunResult :=
  match pcie.mkCfg p.pcie_version p.lanes p.addr_width p.ecrc p.mps p.mrrs
      p.rcb with
  | .error e => .error e
  | .ok cfg =>
    match eth.mkCfg p.ethernet_speed with
    | .error e => .error e
    | .ok ec =>
      match mapE (rowChk cfg (mkBwSpec cfg) ec) sweepSizes with
      | .error e => .error e
      | .ok rows =>
        .ok ⟨cfg, ec, mkBwSpec cfg, rows, every64 rows,
             [Effect.tempFileCreate]⟩

/-- The UI's PCIe-generation dropdown choices (source lines 192–196). -/
def versionChoices : List String :=
  ["gen1", "gen2", "gen3", "gen4", "gen5", "gen6", "gen7"]

/-- The UI's lane-count dropdown choices (source lines 197–201). -/
def laneChoices : List String := ["x1", "x2", "x4", "x8", "x16", "x32"]

/-- The UI's Ethernet-speed dropdown choices (source lines 229–233). -/
def speedChoices : List String :=
  ["400GigE", "200GigE", "100GigE", "50GigE", "40GigE", "25GigE",
   "10GigE", "GigE"]

/-- The UI's default parameter selection (the `value=` of each dropdown):
gen3, x8, 64-bit, no ECRC, MPS 256, MRRS 512, RCB 64, 40GigE. -/
def defaultParams : Params :=
  ⟨"gen3", "x8", 64, 0, 256, 512, 64, "40GigE"⟩

/-- The link configuration `pcie.mkCfg` builds from the defaults. -/
def defaultCfg : pcie.Cfg := ⟨"gen3", 8, 64, 0, 256, 512, 64⟩

/-- The Ethernet configuration `eth.mkCfg` builds from the defaults. -/
def defaultEth : eth.Cfg := ⟨"40GigE", 40 * 10 ^ 9⟩

/-- The UI default parameters with MPS forced to the disallowed value
300, the invalid-input scenario of spec section 8. -/
def badParams : Params := ⟨"gen3", "x8", 64, 0, 300, 512, 64, "40GigE"⟩

/-- Building the PCIe configuration from the UI defaults succeeds. -/
lemma mkCfg_default :
    pcie.mkCfg defaultParams.pcie_version defaultParams.lanes
      defaultParams.addr_width defaultParams.ecrc defaultParams.mps
      defaultParams.mrrs defaultParams.rcb = .ok defaultCfg := by rfl

/-- Building the Ethernet configuration from the UI defaults succeeds. -/
lemma ethCfg_default :
    eth.mkCfg defaultParams.ethernet_speed = .ok defaultEth := by rfl

/-- The default configuration's per-lane rate, evaluated. -/
lemma laneRate_default : defaultCfg.laneRate = (1024 / 130 : ℚ) := by
  simp [pcie.Cfg.laneRate, pcie.laneRateTable, defaultCfg]

/-- The default configuration's per-TLP overhead, evaluated. -/
lemma tlpOverhead_default : defaultCfg.tlpOverhead = 24 := by decide

/-- Spec sanity invariant: TLP-layer bandwidth is strictly below raw
bandwidth for every configuration with positive lane rate, lane count and
MPS (the per-TLP overhead is never zero). -/
lemma TLP_bw_lt_RAW_bw (c : pcie.Cfg) (hr : 0 < c.laneRate)
    (hl : 0 < c.lanes) (hm : 0 < c.mps) : c.TLP_bw < c.RAW_bw := by
  have hRAW : 0 < c.RAW_bw := by
    have h : (0 : ℚ) < c.lanes := by exact_mod_cast hl
    exact mul_pos hr h
  have hm' : (0 : ℚ) < c.mps := by exact_mod_cast hm
  have hden : (0 : ℚ) < c.mps + c.tlpOverhead := by positivity
  rw [pcie.Cfg.TLP_bw, div_lt_iff₀ hden]
  have hovh : (0 : ℚ) < c.tlpOverhead := by
    have h8 : 8 ≤ c.tlpOverhead := by
      rw [pcie.Cfg.tlpOverhead]; omega
    exact_mod_cast by omega
  exact mul_lt_mul_of_pos_left (by linarith) hRAW

/-- Effective throughput is antitone in the per-packet overhead, for a
nonnegative reference bandwidth and positive size. -/
lemma effBw_anti (ref : ℚ) (size n : Nat) (o1 o2 : ℚ) (href : 0 ≤ ref)
    (hs : 0 < size) (h1 : 0 ≤ o1) (h12 : o1 ≤ o2) :
    effBw ref size o2 n ≤ effBw ref size o1 n := by
  unfold effBw
  have hs' : (0 : ℚ) < size := by exact_mod_cast hs
  have hn : (0 : ℚ) ≤ n := by positivity
  have hd1 : (0 : ℚ) < (size : ℚ) + o1 * n := by
    have := mul_nonneg h1 hn
    linarith
  gcongr

/-- A loop iteration through the checked model calls succeeds and agrees
with the unchecked iteration whenever the decremented payload size is
positive. -/
lemma rowChk_ok (c : pcie.Cfg) (bs : pcie.BW_Spec) (ec : eth.Cfg)
    {size : Nat} (h : 0 < size - 4) :
    rowChk c bs ec size = .ok (rowOf c bs ec size) := by
  simp [rowChk, mem_bw.writeChk, mem_bw.readChk, mem_bw.read_writeChk,
    simple_nic.bwChk, niantic.bwChk, h, rowOf, hOptDefault, pmdStr]

/-- A fail-fast map over a list succeeds elementwise when every element
succeeds. -/
lemma mapE_ok {α β : Type} (f : α → Except Err β) (g : α → β) :
    ∀ l : List α, (∀ a ∈ l, f a = .ok (g a)) → mapE f l = .ok (l.map g)
  | [], _ => rfl
  | a :: t, h => by
    have ha := h a (List.mem_cons_self a t)
    have ht := mapE_ok f g t (fun x hx => h x (List.mem_cons_of_mem a hx))
    simp [mapE, ha, ht]

/-- The driver's sweep never fails: every swept size is at least 64, so
every decremented payload is at least 60. -/
lemma sweep_ok (c : pcie.Cfg) (bs : pcie.BW_Spec) (ec : eth.Cfg) :
    mapE (rowChk c bs ec) sweepSizes =
      .ok (sweepSizes.map (rowOf c bs ec)) := by
  apply mapE_ok
  intro s hs
  apply rowChk_ok
  have h64 : 64 ≤ s := by
    have := (List.mem_range'_1.mp hs).1
    simpa using this
  omega

/-- Shape of a successful run: once both configurations build, the run
returns the mapped sweep, its sampling, and the temp-file effect. -/
lemma run_ok (p : Params) (c : pcie.Cfg) (ec : eth.Cfg)
    (hc : pcie.mkCfg p.pcie_version p.lanes p.addr_width p.ecrc p.mps
      p.mrrs p.rcb = .ok c)
    (he : eth.mkCfg p.ethernet_speed = .ok ec) :
    run_pcie_model p = .ok ⟨c, ec, mkBwSpec c,
      sweepSizes.map (rowOf c (mkBwSpec c) ec),
      every64 (sweepSizes.map (rowOf c (mkBwSpec c) ec)),
      [Effect.tempFileCreate]⟩ := by
  unfold run_pcie_model
  rw [hc, he]
  dsimp only
  rw [sweep_ok]

/-- Rebuilding the basis inside every iteration yields the same run. -/
lemma recompute_eq (p : Params) :
    run_pcie_model_recompute p = run_pcie_model p := by
  unfold run_pcie_model run_pcie_model_recompute
  cases hcfg : pcie.mkCfg p.pcie_version p.lanes p.addr_width p.ecrc p.mps
      p.mrrs p.rcb with
  | error e => rfl
  | ok c =>
    cases heth : eth.mkCfg p.ethernet_speed with
    | error e => rfl
    | ok ec => dsimp only

/-- A filterMap over an initial range whose function is total there is a
map. -/
lemma filterMap_range_eq_map {α : Type} (n : Nat) (f : Nat → Option α)
    (g : Nat → α) (h : ∀ k, k < n → f k = some (g k)) :
    (List.range n).filterMap f = (List.range n).map g := by
  induction n with
  | zero => rfl
  | succ m ih =>
    rw [List.range_succ, List.filterMap_append, List.map_append,
      ih (fun k hk => h k (by omega))]
    simp [h m (by omega)]

/-- Sampling every 64th row of the 1437-row sweep keeps exactly the rows
of the sizes 64 + 64k for k = 0..22. -/
lemma every64_sweep {α : Type} (f : Nat → α) :
    every64 (sweepSizes.map f) =
      (List.range 23).map (fun k => f (64 + 64 * k)) := by
  unfold every64 sweepSizes
  have hlen : ((List.range' 64 1437 1).map f).length = 1437 := by simp
  rw [hlen]
  norm_num
  apply filterMap_range_eq_map
  intro k hk
  have h1 : (List.range' 64 1437 1)[64 * k]? = some (64 + 1 * (64 * k)) :=
    List.getElem?_range' _ _ (by omega)
  simp [List.get?_eq_getElem?, h1]

/-- The swept sizes are strictly ascending. -/
lemma sweepSizes_chain' : List.Chain' (· < ·) sweepSizes := by
  rw [List.chain'_iff_pairwise]
  have h := List.pairwise_lt_range' 64 1437 1 (by omega)
  simpa [sweepSizes] using h

/-- The first swept size, 64, is swept. -/
lemma mem_sweepSizes_64 : (64 : Nat) ∈ sweepSizes := by
  simp [sweepSizes, List.mem_range'_1]

/-- Every UI generation choice has a lane-rate table entry. -/
lemma laneRate_of_mem {v : String} (h : v ∈ versionChoices) :
    ∃ r, pcie.laneRateTable v = some r := by
  fin_cases h <;> exact ⟨_, rfl⟩

/-- Every UI lane choice parses. -/
lemma parseLanes_of_mem {l : String} (h : l ∈ laneChoices) :
    ∃ n, pcie.parseLanes l = some n := by
  fin_cases h <;> exact ⟨_, rfl⟩

/-- Every UI Ethernet-speed choice builds an Ethernet configuration. -/
lemma ethCfg_of_mem {s : String} (h : s ∈ speedChoices) :
    ∃ ec, eth.mkCfg s = .ok ec := by
  fin_cases h <;> exact ⟨_, rfl⟩

/-- PCIe configuration construction succeeds on valid enumerated
fields. -/
lemma mkCfg_ok {version lanesStr : String} {addr ecrc mps mrrs rcb : Nat}
    {r : ℚ} {n : Nat}
    (hr : pcie.laneRateTable version = some r)
    (hn : pcie.parseLanes lanesStr = some n)
    (haddr : addr = 32 ∨ addr = 64) (hecrc : ecrc = 0 ∨ ecrc = 1)
    (hmps : mps ∈ pcie.mpsAllowed) (hmrrs : mrrs ∈ pcie.mpsAllowed)
    (hrcb : rcb ∈ pcie.rcbAllowed) :
    pcie.mkCfg version lanesStr addr ecrc mps mrrs rcb =
      .ok ⟨version, n, addr, ecrc, mps, mrrs, rcb⟩ := by
  unfold pcie.mkCfg
  rw [hr, hn]
  dsimp only
  rw [if_pos haddr, if_pos hecrc, if_pos hmps, if_pos hmrrs, if_pos hrcb]

/-- The default configuration's TLP-layer bandwidth is nonnegative, hence
so is the nominal figure of the basis the driver builds from it. -/
lemma tlp_nonneg_default : 0 ≤ (mkBwSpec defaultCfg).nom := by
  show 0 ≤ defaultCfg.TLP_bw
  rw [pcie.Cfg.TLP_bw]
  have h0 : (0 : ℚ) ≤ defaultCfg.laneRate := by
    rw [laneRate_default]; norm_num
  have hraw : (0 : ℚ) ≤ defaultCfg.RAW_bw := by
    rw [pcie.Cfg.RAW_bw]; positivity
  positivity

/-- C1 (counterexample): the single basis the sweep driver constructs is
tagged with mode BW_RAW, yet its exposed reference bandwidth is not the
configuration's raw-bandwidth field — at the UI defaults the driver's
line 56 passes the TLP-layer figure, which is strictly below RAW_bw. -/
theorem basis_raw_mode_c1_cex :
    (run_pcie_model defaultParams).map RunResult.bw_spec =
      .ok (mkBwSpec defaultCfg) ∧
    (mkBwSpec defaultCfg).mode = pcie.BWMode.BW_RAW ∧
    (mkBwSpec defaultCfg).ref ≠ defaultCfg.RAW_bw := by
  refine ⟨?_, rfl, ?_⟩
  · rw [run_ok defaultParams defaultCfg defaultEth mkCfg_default
      ethCfg_default]
    rfl
  · show defaultCfg.TLP_bw ≠ defaultCfg.RAW_bw
    apply ne_of_lt
    apply TLP_bw_lt_RAW_bw
    · rw [laneRate_default]; norm_num
    · decide
    · decide

/-- C1 (amended): the basis the sweep driver constructs carries the
configuration's TLP-layer bandwidth as its reference (passed as both the
nominal and the worst-case figure), under the mode tag BW_RAW; the value
is fixed at construction. -/
theorem basis_reference_is_tlp_c1 (c : pcie.Cfg) :
    (mkBwSpec c).mode = pcie.BWMode.BW_RAW ∧
    (mkBwSpec c).ref = c.TLP_bw ∧
    (mkBwSpec c).nom = c.TLP_bw ∧
    (mkBwSpec c).worst = c.TLP_bw :=
  ⟨rfl, rfl, rfl, rfl⟩

/-- C2: for every gross size the sweep iterates, each of the seven
per-size model invocations receives the payload argument size − 4, and
the stored row is exactly the model results at that decremented size. -/
theorem sweep_payload_decrement_c2 (c : pcie.Cfg) (bs : pcie.BW_Spec)
    (ec : eth.Cfg) (s : Nat) (hs : s ∈ sweepSizes) :
    rowArgs s = List.replicate 7 (s - 4) ∧
    rowOf c bs ec s = ⟨s,
      (mem_bw.write c bs (s - 4)).tx_eff,
      (mem_bw.read c bs (s - 4)).rx_eff,
      (mem_bw.read_write c bs (s - 4)).tx_eff,
      ec.bps_ex (s - 4) / (1000 * 1000 * 1000),
      (simple_nic.bw c bs pcie.Dir.DIR_BOTH (s - 4)).tx_eff,
      (niantic.bw c bs pcie.Dir.DIR_BOTH (s - 4) hOptDefault).tx_eff,
      (niantic.bw c bs pcie.Dir.DIR_BOTH (s - 4) pmdStr).tx_eff⟩ :=
  ⟨rfl, rfl⟩

/-- C2 witness at gross size 64. -/
theorem sweep_payload_decrement_c2_witness :
    (64 : Nat) ∈ sweepSizes ∧ rowArgs 64 = List.replicate 7 (64 - 4) :=
  ⟨mem_sweepSizes_64,
   (sweep_payload_decrement_c2 defaultCfg (mkBwSpec defaultCfg) defaultEth
     64 mem_sweepSizes_64).1⟩

/-- C3: once the PCIe and Ethernet configurations build, the run builds
them and the basis exactly once and returns the per-size table in full:
1437 rows, one per gross size 64..1500 in strictly ascending order, the
k-th row computed independently from size 64 + k alone. -/
theorem sweep_structure_c3 (p : Params) (c : pcie.Cfg) (ec : eth.Cfg)
    (hc : pcie.mkCfg p.pcie_version p.lanes p.addr_width p.ecrc p.mps
      p.mrrs p.rcb = .ok c)
    (he : eth.mkCfg p.ethernet_speed = .ok ec) :
    run_pcie_model p = .ok ⟨c, ec, mkBwSpec c,
        sweepSizes.map (rowOf c (mkBwSpec c) ec),
        every64 (sweepSizes.map (rowOf c (mkBwSpec c) ec)),
        [Effect.tempFileCreate]⟩ ∧
    (sweepSizes.map (rowOf c (mkBwSpec c) ec)).length = 1437 ∧
    List.Chain' (· < ·) sweepSizes ∧
    ∀ k, k < 1437 →
      (sweepSizes.map (rowOf c (mkBwSpec c) ec)).get? k =
        some (rowOf c (mkBwSpec c) ec (64 + k)) := by
  refine ⟨run_ok p c ec hc he, by simp [sweepSizes], sweepSizes_chain', ?_⟩
  intro k hk
  have h1 : sweepSizes[k]? = some (64 + 1 * k) := by
    unfold sweepSizes
    exact List.getElem?_range' _ _ hk
  simp [List.get?_eq_getElem?, h1]

/-- C3 witness at the UI defaults. -/
theorem sweep_structure_c3_witness :
    run_pcie_model defaultParams = .ok ⟨defaultCfg, defaultEth,
      mkBwSpec defaultCfg,
      sweepSizes.map (rowOf defaultCfg (mkBwSpec defaultCfg) defaultEth),
      every64 (sweepSizes.map
        (rowOf defaultCfg (mkBwSpec defaultCfg) defaultEth)),
      [Effect.tempFileCreate]⟩ :=
  (sweep_structure_c3 defaultParams defaultCfg defaultEth mkCfg_default
    ethCfg_default).1

/-- C4: for every parameter combination reachable through the UI's
enumerated dropdown choices, configuration construction and every
per-size model call of the sweep succeed — no ConfigurationError and no
InvalidSizeError is ever raised during a UI-driven run. -/
theorem ui_choices_no_error_c4 (p : Params)
    (h1 : p.pcie_version ∈ versionChoices) (h2 : p.lanes ∈ laneChoices)
    (h3 : p.addr_width = 32 ∨ p.addr_width = 64)
    (h4 : p.ecrc = 0 ∨ p.ecrc = 1)
    (h5 : p.mps ∈ pcie.mpsAllowed) (h6 : p.mrrs ∈ pcie.mpsAllowed)
    (h7 : p.rcb ∈ pcie.rcbAllowed)
    (h8 : p.ethernet_speed ∈ speedChoices) :
    ∃ res, run_pcie_model p = .ok res := by
  obtain ⟨r, hr⟩ := laneRate_of_mem h1
  obtain ⟨n, hn⟩ := parseLanes_of_mem h2
  obtain ⟨ec, he⟩ := ethCfg_of_mem h8
  exact ⟨_, run_ok p ⟨p.pcie_version, n, p.addr_width, p.ecrc, p.mps,
    p.mrrs, p.rcb⟩ ec (mkCfg_ok hr hn h3 h4 h5 h6 h7) he⟩

/-- C4 witness at the UI defaults. -/
theorem ui_choices_no_error_c4_witness :
    ∃ res, run_pcie_model defaultParams = .ok res :=
  ui_choices_no_error_c4 defaultParams (by decide) (by decide) (by decide)
    (by decide) (by decide) (by decide) (by decide) (by decide)

/-- C5 (counterexample): the claimed pointwise chain fails between the
kernel-driver modern NIC and the simple NIC: at the UI defaults and the
payload 60 the sweep passes for gross size 64, the kernel-driver
throughput is strictly below the simple-NIC throughput, because the
kernel driver adds an interrupt-triggered MMIO cost on top of the
descriptor cost the simple NIC already pays. -/
theorem nic_ordering_c5_cex :
    ¬ ((niantic.bw defaultCfg (mkBwSpec defaultCfg) pcie.Dir.DIR_BOTH 60
        hOptDefault).tx_eff ≥
      (simple_nic.bw defaultCfg (mkBwSpec defaultCfg) pcie.Dir.DIR_BOTH
        60).tx_eff) := by
  have hker : ¬ (hOptDefault = "PMD") := by decide
  have hpw : mem_bw.pktsWrite defaultCfg 60 = 1 := by decide
  rw [not_le]
  unfold niantic.bw simple_nic.bw nicBw
  rw [if_neg hker]
  dsimp only
  unfold effBw
  rw [hpw, tlpOverhead_default]
  have href : (0 : ℚ) < (mkBwSpec defaultCfg).ref * (60 : Nat) := by
    have h0 : (0 : ℚ) < defaultCfg.laneRate := by
      rw [laneRate_default]; norm_num
    have hraw : (0 : ℚ) < defaultCfg.RAW_bw := by
      rw [pcie.Cfg.RAW_bw]
      have h8 : (0 : ℚ) < (defaultCfg.lanes : ℚ) := by norm_num [defaultCfg]
      positivity
    have htlp : (0 : ℚ) < defaultCfg.TLP_bw := by
      rw [pcie.Cfg.TLP_bw, tlpOverhead_default]
      have hm : (0 : ℚ) < (defaultCfg.mps : ℚ) := by norm_num [defaultCfg]
      positivity
    have hrf : (mkBwSpec defaultCfg).ref = defaultCfg.TLP_bw := rfl
    rw [hrf]
    positivity
  calc (mkBwSpec defaultCfg).ref * ((60 : Nat) : ℚ) /
        (((60 : Nat) : ℚ) + ((24 : Nat) + niantic.kernelExtra) * (1 : Nat))
      < (mkBwSpec defaultCfg).ref * ((60 : Nat) : ℚ) /
        (((60 : Nat) : ℚ) + ((24 : Nat) + descBytes) * (1 : Nat)) := by
        apply div_lt_div_of_pos_left href
        · norm_num [descBytes]
        · norm_num [descBytes, niantic.kernelExtra, mmioBytes]
    _ = _ := rfl

/-- C5 (amended): for identical configuration, basis, direction and
positive size, and a nonnegative reference bandwidth, the poll-mode
driver's throughput dominates the kernel driver's, and the simple NIC's
throughput also dominates the kernel driver's (the middle inequality of
the claimed chain is reversed), in both directions of DIR_BOTH. -/
theorem nic_ordering_c5_amended (c : pcie.Cfg) (bs : pcie.BW_Spec)
    (s : Nat) (href : 0 ≤ bs.nom) (hs : 0 < s) :
    ((niantic.bw c bs pcie.Dir.DIR_BOTH s pmdStr).tx_eff ≥
      (niantic.bw c bs pcie.Dir.DIR_BOTH s hOptDefault).tx_eff) ∧
    ((niantic.bw c bs pcie.Dir.DIR_BOTH s pmdStr).rx_eff ≥
      (niantic.bw c bs pcie.Dir.DIR_BOTH s hOptDefault).rx_eff) ∧
    ((simple_nic.bw c bs pcie.Dir.DIR_BOTH s).tx_eff ≥
      (niantic.bw c bs pcie.Dir.DIR_BOTH s hOptDefault).tx_eff) ∧
    ((simple_nic.bw c bs pcie.Dir.DIR_BOTH s).rx_eff ≥
      (niantic.bw c bs pcie.Dir.DIR_BOTH s hOptDefault).rx_eff) := by
  have hker : ¬ (hOptDefault = "PMD") := by decide
  have hpmd : pmdStr = "PMD" := rfl
  have href' : 0 ≤ pcie.BW_Spec.ref bs := href
  have hpmd0 : (0 : ℚ) ≤ niantic.pmdExtra := by
    norm_num [niantic.pmdExtra, descBytes, mmioBytes, pmdBatch]
  have hdesc0 : (0 : ℚ) ≤ descBytes := by norm_num [descBytes]
  have hpk : niantic.pmdExtra ≤ niantic.kernelExtra := by
    norm_num [niantic.pmdExtra, niantic.kernelExtra, descBytes, mmioBytes,
      pmdBatch]
  have hdk : descBytes ≤ niantic.kernelExtra := by
    norm_num [niantic.kernelExtra, descBytes, mmioBytes]
  unfold niantic.bw simple_nic.bw nicBw
  rw [if_pos hpmd, if_neg hker]
  dsimp only
  refine ⟨?_, ?_, ?_, ?_⟩ <;>
    apply effBw_anti _ _ _ _ _ href' hs
      (add_nonneg (Nat.cast_nonneg _) (by assumption))
      (add_le_add_left (by assumption) _)

/-- C5 amended witness at the UI defaults and payload 60. -/
theorem nic_ordering_c5_amended_witness :
    0 ≤ (mkBwSpec defaultCfg).nom ∧ 0 < 60 ∧
    ((niantic.bw defaultCfg (mkBwSpec defaultCfg) pcie.Dir.DIR_BOTH 60
        pmdStr).tx_eff ≥
      (niantic.bw defaultCfg (mkBwSpec defaultCfg) pcie.Dir.DIR_BOTH 60
        hOptDefault).tx_eff) :=
  ⟨tlp_nonneg_default, by decide,
   (nic_ordering_c5_amended defaultCfg (mkBwSpec defaultCfg) 60
     tlp_nonneg_default (by decide)).1⟩

/-- C6: for every configuration, basis and positive size, the combined
read+write result carries both direction figures, and each equals the
corresponding one-directional result — the transmit figure equals the
write-only throughput and the receive figure equals the read-only
throughput, with no cross-direction contention. -/
theorem read_write_independent_c6 (c : pcie.Cfg) (bs : pcie.BW_Spec)
    (s : Nat) (hs : 0 < s) :
    (mem_bw.read_write c bs s).tx_eff = (mem_bw.write c bs s).tx_eff ∧
    (mem_bw.read_write c bs s).rx_eff = (mem_bw.read c bs s).rx_eff :=
  ⟨rfl, rfl⟩

/-- C6 witness at the UI defaults and size 1. -/
theorem read_write_independent_c6_witness :
    0 < 1 ∧
    (mem_bw.read_write defaultCfg (mkBwSpec defaultCfg) 1).tx_eff =
      (mem_bw.write defaultCfg (mkBwSpec defaultCfg) 1).tx_eff :=
  ⟨by decide,
   (read_write_independent_c6 defaultCfg (mkBwSpec defaultCfg) 1
     (by decide)).1⟩

/-- C7: a full sweep run at the UI defaults does NOT leave the filesystem
unchanged — the driver's lines 59–60 create a temporary `.dat` file with
`delete=False` that is never written, read or removed, so the run's
external-effect trace is nonempty, consisting of exactly that file
creation. -/
theorem run_creates_tempfile_c7 :
    (run_pcie_model defaultParams).map RunResult.effects =
      .ok [Effect.tempFileCreate] := by
  rw [run_ok defaultParams defaultCfg defaultEth mkCfg_default
    ethCfg_default]
  rfl

/-- C8: the run is a pure function of its parameters — equal parameters
give equal configuration record, series, table and sampled table — and
recomputing the basis inside every iteration instead of reusing the one
cached before the loop yields an identical run. -/
theorem run_deterministic_c8 (p q : Params) (h : p = q) :
    run_pcie_model p = run_pcie_model q ∧
    run_pcie_model_recompute p = run_pcie_model p := by
  subst h
  exact ⟨rfl, recompute_eq p⟩

/-- C8 witness at the UI defaults. -/
theorem run_deterministic_c8_witness :
    run_pcie_model defaultParams = run_pcie_model defaultParams ∧
    run_pcie_model_recompute defaultParams =
      run_pcie_model defaultParams :=
  run_deterministic_c8 defaultParams defaultParams rfl

/-- C9: any error raised by configuration construction or by a per-size
model call propagates out of the run unchanged — whichever stage fails
first (PCIe configuration, Ethernet configuration, or the sweep), the run
returns exactly that error and no partial result. -/
theorem error_propagation_c9 (p : Params) (e : Err)
    (h : pcie.mkCfg p.pcie_version p.lanes p.addr_width p.ecrc p.mps
        p.mrrs p.rcb = .error e
      ∨ (∃ c, pcie.mkCfg p.pcie_version p.lanes p.addr_width p.ecrc p.mps
          p.mrrs p.rcb = .ok c ∧ eth.mkCfg p.ethernet_speed = .error e)
      ∨ (∃ c ec, pcie.mkCfg p.pcie_version p.lanes p.addr_width p.ecrc
          p.mps p.mrrs p.rcb = .ok c ∧
          eth.mkCfg p.ethernet_speed = .ok ec ∧
          mapE (rowChk c (mkBwSpec c) ec) sweepSizes = .error e)) :
    run_pcie_model p = .error e := by
  unfold run_pcie_model
  rcases h with h | ⟨c, hc, he⟩ | ⟨c, ec, hc, he, hsw⟩
  · rw [h]
  · rw [hc, he]
  · rw [hc, he]
    dsimp only
    rw [hsw]

/-- C9 witness: MPS = 300 — the invalid-input scenario of spec section 8
— propagates as a ConfigurationError out of the whole run. -/
theorem error_propagation_c9_witness :
    run_pcie_model badParams = .error (Err.configurationError ("mps")) :=
  error_propagation_c9 badParams (Err.configurationError ("mps"))
    (Or.inl (by rfl))

/-- C10: the sampled table is exactly every 64th row of the full sweep:
23 rows, holding the full eight-column rows computed for the gross sizes
64 + 64k for k = 0..22 (from 64 up to 1472). -/
theorem sampled_table_c10 (c : pcie.Cfg) (bs : pcie.BW_Spec)
    (ec : eth.Cfg) :
    every64 (sweepSizes.map (rowOf c bs ec)) =
      (List.range 23).map (fun k => rowOf c bs ec (64 + 64 * k)) ∧
    (every64 (sweepSizes.map (rowOf c bs ec))).length = 23 := by
  refine ⟨every64_sweep _, ?_⟩
  rw [every64_sweep]
  simp
